import Mathlib

/-!
Shallow embedding of `src/dependencies/ipcsrvmanager/d.getipcinfo.rs`
(Lumen OS IPC info query interface and monitoring system).

Machine integers (`u32`, `usize` on the 32-bit ARMv7a target) are modelled
as `Nat`; wrap-around of `AtomicU32::fetch_add` / `store(x as u32)` is made
explicit with `% 2^32` at the points where the source stores a counter.
Fixed-size byte arrays (`[u8; 64]`, `[u8; 16]`) are modelled as `List Nat`
of byte values.  Global mutable state (`GLOBAL_IPC_INFO`, the C export's
`INFO_CACHE`, `IPC_MONITOR`, `BOOT_TIMESTAMP`) is threaded explicitly as
state records.  The hardware monotonic counter read (`rdtsc`) is modelled
as a `now : Nat` parameter to initialization.
-/

set_option maxRecDepth 4000

/-- Modelled from the spec: `SYSTEM_UID` is imported from `crate::main`,
which is not under `src/`.  The spec calls it "a privileged system
principal"; the conventional system uid on this platform is 1000.  No
claim depends on the numeric value, only on it being a fixed constant
distinct from 1001. -/
def SYSTEM_UID : Nat := 1000

/-- Modelled from the spec: `MEM_PAGE_SIZE` is imported from `crate::main`,
not under `src/`.  The source comment at `get_ipc_paging_info` says
"1MB IPC region / 16kb" with 64 pages mapped, so the page size is 16 KiB.
No claim depends on the numeric value. -/
def MEM_PAGE_SIZE : Nat := 16384

/-- Modelled from the spec: `LUMEN_MAGIC` is imported from `crate::main`,
not under `src/`.  The spec describes it as "a magic constant identifying
a valid record", distinct from the invalid-magic constant `0xDEADBEEF`.
The value chosen here is ASCII "LUMN"; no claim depends on the value
beyond it differing from `0xDEADBEEF`. -/
def LUMEN_MAGIC : Nat := 0x4C554D4E

/-- Modelled from the spec: `NEXUS6_CODENAME` is imported from
`crate::main`, not under `src/`.  The spec calls it "the configured
device-identity string"; the source's targeting table hardcodes the
64-byte buffer as `"Motorola Nexus 6 shamu"` space-padded, so the
identity string is that prefix. -/
def NEXUS6_CODENAME : String := "Motorola Nexus 6 shamu"

/-- Modelled from the spec: `KERNEL_BASE` is imported from `crate::main`,
not under `src/`.  The source registers the monitor callback at the fixed
address `0x8000_4000 = KERNEL_BASE + 0x4000`, so `KERNEL_BASE` is
`0x8000_0000`.  No claim depends on the value. -/
def KERNEL_BASE : Nat := 0x80000000

/-- Bytes of a string (the source uses `&str::as_bytes` on an ASCII
literal; for ASCII, the UTF-8 bytes are the character codes). -/
def strBytes (s : String) : List Nat := s.toList.map Char.toNat

/-- An all-zero byte buffer of length `n` (`[0u8; n]`). -/
def zeroBytes (n : Nat) : List Nat := List.replicate n 0

/-- `buf[..src.len()].copy_from_slice(src)`: overwrite the prefix of
`buf` with `src`, keeping the rest. -/
def copyPrefix (buf src : List Nat) : List Nat := src ++ buf.drop src.length

/-- `struct IPCInfo` (`d.getipcinfo.rs` lines 18-31): the composite
snapshot returned by `get_ipc_info`. -/
structure IPCInfo where
  magic : Nat
  version : Nat
  mem_page_size : Nat
  uid_enforced : Nat
  target_device : List Nat
  pages_mapped : Nat
  active_transactions : Nat
  lock_type : List Nat
  binder_handle : Nat
  server_port : Nat
  valid : Bool
  deriving DecidableEq

/-- `struct IPCTargetingInfo` (lines 33-41). -/
structure IPCTargetingInfo where
  target_device : List Nat
  allowed_uids : List Nat
  uid_count : Nat
  target_valid : Bool
  enforced : Bool
  lock_active : Bool
  deriving DecidableEq

/-- `struct IPCPagingInfo` (lines 43-52). -/
structure IPCPagingInfo where
  page_size : Nat
  pages_mapped : Nat
  l1_table_base : Nat
  total_ipc_region : Nat
  cache_flags : Nat
  tlb_flushes : Nat
  valid : Bool
  deriving DecidableEq

/-- The external OS-server collaborator (`crate::osserver::OS_SERVER`):
only its `validate_target` capability is used here.  `Option OSServer`
models the nullable global `OS_SERVER`. -/
structure OSServer where
  validate_target : String → Bool

/-- The fields of `crate::main::BinderTransaction` that this file reads
(`sender_uid`, `data_size`, `return_error`).  `data_size` is a `usize`
(32-bit on this target); `return_error` is a signed result code. -/
structure BinderTransaction where
  sender_uid : Nat
  data_size : Nat
  return_error : Int
  deriving DecidableEq

/-- Initial value of the `static mut GLOBAL_IPC_INFO` (lines 56-68).
The source initializes `target_device` and `lock_type` with a
placeholder ("Filled at init"); they are modelled as zero-filled. -/
def initialGlobalIpcInfo : IPCInfo :=
  { magic := LUMEN_MAGIC
    version := 0x10001
    mem_page_size := MEM_PAGE_SIZE
    uid_enforced := SYSTEM_UID
    target_device := zeroBytes 64
    pages_mapped := 0
    active_transactions := 0
    lock_type := zeroBytes 16
    binder_handle := 0xDEADBEEF
    server_port := 0x4C495043
    valid := false }

/-- `GetIPCInfo::validate_uid` (lines 142-144): `uid == SYSTEM_UID ||
uid == 1001`. -/
def GetIPCInfo.validate_uid (uid : Nat) : Bool :=
  uid == SYSTEM_UID || uid == 1001

/-- `GetIPCInfo::invalid_ipc_info` (lines 146-160): the invalid sentinel
snapshot. -/
def GetIPCInfo.invalid_ipc_info : IPCInfo :=
  { magic := 0xDEADBEEF
    version := 0
    mem_page_size := 0
    uid_enforced := 0
    target_device := zeroBytes 64
    pages_mapped := 0
    active_transactions := 0
    lock_type := zeroBytes 16
    binder_handle := 0
    server_port := 0
    valid := false }

/-- `GetIPCInfo::get_ipc_targeting_info` (lines 100-118): static
configuration with `target_valid` overridden by the OS server's
`validate_target` when the server is present.  The source's
`target_device` byte-string literal is `"Motorola Nexus 6 shamu"`
space-padded (the literal is overlong for the 64-byte field; its 64-byte
prefix is modelled: the identity string followed by ASCII spaces, 0x20). -/
def GetIPCInfo.get_ipc_targeting_info (os : Option OSServer) : IPCTargetingInfo :=
  let info : IPCTargetingInfo :=
    { target_device := copyPrefix (List.replicate 64 0x20) (strBytes NEXUS6_CODENAME)
      allowed_uids := [SYSTEM_UID, 1001, 0, 0, 0, 0, 0, 0]
      uid_count := 2
      target_valid := true
      enforced := true
      lock_active := false }
  match os with
  | none => info
  | some server => { info with target_valid := server.validate_target NEXUS6_CODENAME }

/-- `GetIPCInfo::get_ipc_paging_info` (lines 121-131): fixed geometry. -/
def GetIPCInfo.get_ipc_paging_info : IPCPagingInfo :=
  { page_size := MEM_PAGE_SIZE
    pages_mapped := 64
    l1_table_base := KERNEL_BASE + 0x4000
    total_ipc_region := MEM_PAGE_SIZE * 64
    cache_flags := 0x5
    tlb_flushes := 0
    valid := true }

/-- The bytes of the `b"Global"` lock-type label that `get_ipc_info`
copies into the snapshot (line 92). -/
def lockLabelBytes : List Nat := strBytes ("Global")

/-- The resolvers a `get_ipc_info` call may invoke; recorded as an event
trace so that "without invoking either resolver" is expressible. -/
inductive ResolverCall where
  | paging
  | targeting
  deriving DecidableEq

/-- `GetIPCInfo::get_ipc_info` (lines 76-97).  State in: the
`GLOBAL_IPC_INFO` singleton; returns the snapshot, the updated
singleton, and the trace of resolver invocations.  On a failed uid check
it returns the sentinel without touching the global and with an empty
trace; otherwise it invokes both resolvers, updates `pages_mapped`,
`valid`, the device-identity prefix and the `"Global"` lock label in
place, and returns a copy of the global. -/
def GetIPCInfo.get_ipc_info (os : Option OSServer) (g : IPCInfo) (uid : Nat) :
    IPCInfo × IPCInfo × List ResolverCall :=
  if !GetIPCInfo.validate_uid uid then
    (GetIPCInfo.invalid_ipc_info, g, [])
  else
    let paging_info := GetIPCInfo.get_ipc_paging_info
    let _targeting_info := GetIPCInfo.get_ipc_targeting_info os
    let g' : IPCInfo :=
      { g with
        pages_mapped := paging_info.pages_mapped
        valid := true
        target_device := copyPrefix g.target_device (strBytes NEXUS6_CODENAME)
        lock_type := copyPrefix g.lock_type lockLabelBytes }
    (g', g', [ResolverCall.paging, ResolverCall.targeting])

/-- Initial value of the C export's `static mut INFO_CACHE`
(lines 167-179). -/
def initialInfoCache : IPCInfo :=
  { magic := LUMEN_MAGIC
    version := 0x10001
    mem_page_size := MEM_PAGE_SIZE
    uid_enforced := SYSTEM_UID
    target_device := zeroBytes 64
    pages_mapped := 0
    active_transactions := 0
    lock_type := zeroBytes 16
    binder_handle := 0xDEADBEEF
    server_port := 0x4C495043
    valid := false }

/-- The process-wide mutable state the C export `get_ipc_info` touches:
the aggregator's `GLOBAL_IPC_INFO` and the export's own `INFO_CACHE`. -/
structure CExportState where
  global : IPCInfo
  cache : IPCInfo
  deriving DecidableEq

/-- Boot-time value of the C export state. -/
def initialCExportState : CExportState :=
  { global := initialGlobalIpcInfo, cache := initialInfoCache }

/-- `extern "C" fn get_ipc_info` (lines 166-192): calls the method, then
unconditionally bulk-copies the returned snapshot into `INFO_CACHE` and
returns (a pointer to) the cache.  The returned value is the new cache
content. -/
def get_ipc_info_c (os : Option OSServer) (s : CExportState) (uid : Nat) :
    IPCInfo × CExportState :=
  let r := GetIPCInfo.get_ipc_info os s.global uid
  (r.1, { global := r.2.1, cache := r.1 })

/-- `struct IPCStats` (lines 257-269): the ten-counter bank.  Each field
is an `AtomicU32`; values are `Nat` kept below `2^32` by the operations. -/
structure IPCStats where
  transactions_total : Nat
  pages_mapped_total : Nat
  lock_contention : Nat
  uid_violations : Nat
  target_mismatches : Nat
  tlb_flushes_total : Nat
  max_transaction_size : Nat
  avg_latency_ns : Nat
  uptime_seconds : Nat
  errors_total : Nat
  deriving DecidableEq

/-- Boot value of `static mut IPC_MONITOR` (lines 271-282): all zeros. -/
def initialIpcStats : IPCStats :=
  { transactions_total := 0
    pages_mapped_total := 0
    lock_contention := 0
    uid_violations := 0
    target_mismatches := 0
    tlb_flushes_total := 0
    max_transaction_size := 0
    avg_latency_ns := 0
    uptime_seconds := 0
    errors_total := 0 }

/-- State of the monitoring subsystem: the counter bank, the
`BOOT_TIMESTAMP` global, and whether the completion hook has been
registered at the fixed hardware address. -/
structure MonitorState where
  stats : IPCStats
  boot_timestamp : Nat
  callback_registered : Bool
  deriving DecidableEq

/-- `GetIPCInfo::init_ipc_monitoring` (lines 288-303): stores the current
monotonic hardware-counter sample (`rdtsc`, passed here as `now`) into
`BOOT_TIMESTAMP`, zeroes exactly `transactions_total`,
`pages_mapped_total`, `lock_contention` and `errors_total`, and registers
the monitor callback. -/
def GetIPCInfo.init_ipc_monitoring (now : Nat) (s : MonitorState) : MonitorState :=
  { boot_timestamp := now
    stats := { s.stats with
      transactions_total := 0
      pages_mapped_total := 0
      lock_contention := 0
      errors_total := 0 }
    callback_registered := true }

/-- `monitor_transaction_hook` (lines 366-385): unconditionally bumps
`transactions_total`; raises `max_transaction_size` to `data_size` when
larger; on a non-zero result code bumps `errors_total` and additionally
`uid_violations` on `-13` (EACCES) or `target_mismatches` on `-99`
(LIPC_TARGET_MISMATCH).  `fetch_add`/`store` on `AtomicU32` wrap, hence
the `% 2^32`. -/
def monitor_transaction_hook (txn : BinderTransaction) (st : IPCStats) : IPCStats :=
  let st := { st with transactions_total := (st.transactions_total + 1) % 2^32 }
  let st :=
    if txn.data_size > st.max_transaction_size then
      { st with max_transaction_size := txn.data_size % 2^32 }
    else st
  if txn.return_error ≠ 0 then
    let st := { st with errors_total := (st.errors_total + 1) % 2^32 }
    if txn.return_error = -13 then
      { st with uid_violations := (st.uid_violations + 1) % 2^32 }
    else if txn.return_error = -99 then
      { st with target_mismatches := (st.target_mismatches + 1) % 2^32 }
    else st
  else st

/-- `sample_ipc_stats` (lines 389-393): the periodic tick. -/
def sample_ipc_stats (st : IPCStats) : IPCStats :=
  { st with uptime_seconds := (st.uptime_seconds + 1) % 2^32 }

/-- Run the completion hook over a sequence of transactions in order. -/
def runHooks (txns : List BinderTransaction) (st : IPCStats) : IPCStats :=
  txns.foldl (fun s t => monitor_transaction_hook t s) st

/-- The spec's StatsCounters invariant:
`errors_total >= uid_violations + target_mismatches`. -/
def statsInvariant (st : IPCStats) : Prop :=
  st.errors_total ≥ st.uid_violations + st.target_mismatches

instance (st : IPCStats) : Decidable (statsInvariant st) := by
  unfold statsInvariant; infer_instance

/-- Field-by-field characterization of one `monitor_transaction_hook`
invocation, used by the monitoring claims. -/
theorem monitor_transaction_hook_spec (txn : BinderTransaction) (st : IPCStats) :
    (monitor_transaction_hook txn st).transactions_total
        = (st.transactions_total + 1) % 2^32 ∧
    (monitor_transaction_hook txn st).max_transaction_size
        = (if txn.data_size > st.max_transaction_size then txn.data_size % 2^32
           else st.max_transaction_size) ∧
    (monitor_transaction_hook txn st).errors_total
        = (if txn.return_error ≠ 0 then (st.errors_total + 1) % 2^32
           else st.errors_total) ∧
    (monitor_transaction_hook txn st).uid_violations
        = (if txn.return_error = -13 then (st.uid_violations + 1) % 2^32
           else st.uid_violations) ∧
    (monitor_transaction_hook txn st).target_mismatches
        = (if txn.return_error = -99 then (st.target_mismatches + 1) % 2^32
           else st.target_mismatches) ∧
    (monitor_transaction_hook txn st).pages_mapped_total = st.pages_mapped_total ∧
    (monitor_transaction_hook txn st).lock_contention = st.lock_contention ∧
    (monitor_transaction_hook txn st).tlb_flushes_total = st.tlb_flushes_total ∧
    (monitor_transaction_hook txn st).avg_latency_ns = st.avg_latency_ns ∧
    (monitor_transaction_hook txn st).uptime_seconds = st.uptime_seconds := by
  simp only [monitor_transaction_hook]
  split_ifs <;> simp_all

/-- Claim C1: for every uid outside the allow-list {SYSTEM_UID, 1001},
`get_ipc_info` returns the sentinel snapshot: `valid = false`, `magic`
the invalid-magic constant `0xDEADBEEF` (distinct from the valid magic
`LUMEN_MAGIC`), every numeric field zero and both byte buffers
zero-filled; for every uid in the allow-list it returns `valid = true`.
Totality (never fails by exception) holds because `get_ipc_info` is a
total function of its inputs. -/
theorem C1_sentinel_on_denied_uid (os : Option OSServer) (g : IPCInfo) (uid : Nat) :
    (uid ≠ SYSTEM_UID ∧ uid ≠ 1001 →
      (GetIPCInfo.get_ipc_info os g uid).1 = GetIPCInfo.invalid_ipc_info) ∧
    GetIPCInfo.invalid_ipc_info.valid = false ∧
    GetIPCInfo.invalid_ipc_info.magic = 0xDEADBEEF ∧
    0xDEADBEEF ≠ LUMEN_MAGIC ∧
    GetIPCInfo.invalid_ipc_info.version = 0 ∧
    GetIPCInfo.invalid_ipc_info.mem_page_size = 0 ∧
    GetIPCInfo.invalid_ipc_info.uid_enforced = 0 ∧
    GetIPCInfo.invalid_ipc_info.pages_mapped = 0 ∧
    GetIPCInfo.invalid_ipc_info.active_transactions = 0 ∧
    GetIPCInfo.invalid_ipc_info.binder_handle = 0 ∧
    GetIPCInfo.invalid_ipc_info.server_port = 0 ∧
    GetIPCInfo.invalid_ipc_info.target_device = zeroBytes 64 ∧
    GetIPCInfo.invalid_ipc_info.lock_type = zeroBytes 16 ∧
    ((uid = SYSTEM_UID ∨ uid = 1001) →
      (GetIPCInfo.get_ipc_info os g uid).1.valid = true) := by
  refine ⟨?_, by decide, by decide, by decide, by decide, by decide, by decide,
    by decide, by decide, by decide, by decide, by decide, by decide, ?_⟩
  · rintro ⟨h1, h2⟩
    have hv : GetIPCInfo.validate_uid uid = false := by
      simp [GetIPCInfo.validate_uid, h1, h2]
    simp [GetIPCInfo.get_ipc_info, hv]
  · intro h
    have hv : GetIPCInfo.validate_uid uid = true := by
      rcases h with h | h <;> simp [GetIPCInfo.validate_uid, h]
    simp [GetIPCInfo.get_ipc_info, hv]

/-- Witness for C1 at uid 9999 (denied) and uid `SYSTEM_UID` (allowed). -/
theorem C1_sentinel_on_denied_uid_witness :
    (GetIPCInfo.get_ipc_info none initialGlobalIpcInfo 9999).1
      = GetIPCInfo.invalid_ipc_info ∧
    (GetIPCInfo.get_ipc_info none initialGlobalIpcInfo SYSTEM_UID).1.valid = true := by
  have h9 := C1_sentinel_on_denied_uid none initialGlobalIpcInfo 9999
  have hs := C1_sentinel_on_denied_uid none initialGlobalIpcInfo SYSTEM_UID
  obtain ⟨-, -, -, -, -, -, -, -, -, -, -, -, -, hvalid⟩ := hs
  exact ⟨h9.1 (by decide), hvalid (Or.inl rfl)⟩

/-- Counterexample to claim C2: re-invoking `init_ipc_monitoring` from a
state satisfying the invariant but with `uid_violations = 1` (and
`errors_total = 1`) zeroes `errors_total` while leaving `uid_violations`
at 1, so `errors_total >= uid_violations + target_mismatches` is
destroyed. -/
theorem C2_invariant_counterexample :
    statsInvariant { initialIpcStats with uid_violations := 1, errors_total := 1 } ∧
    ¬ statsInvariant (GetIPCInfo.init_ipc_monitoring 0
        ⟨{ initialIpcStats with uid_violations := 1, errors_total := 1 }, 0, true⟩).stats := by
  decide

/-- Claim C2 (amended): the invariant
`errors_total >= uid_violations + target_mismatches` is preserved by the
transaction-completion hook (for counter values inside the u32 range,
i.e. when `errors_total + 1 < 2^32`) and by `sample_ipc_stats`, and it
holds after `init_ipc_monitoring` whenever the prior state has
`uid_violations + target_mismatches = 0` (in particular after boot
initialization from the zeroed bank); re-initialization from a state
with `uid_violations + target_mismatches > 0` destroys it. -/
theorem C2_invariant_amended (txn : BinderTransaction) (st : IPCStats)
    (now : Nat) (s : MonitorState) :
    (statsInvariant st → st.errors_total + 1 < 2^32 →
      statsInvariant (monitor_transaction_hook txn st)) ∧
    (statsInvariant st → statsInvariant (sample_ipc_stats st)) ∧
    (s.stats.uid_violations + s.stats.target_mismatches = 0 →
      statsInvariant (GetIPCInfo.init_ipc_monitoring now s).stats) := by
  obtain ⟨htt, hmax, herr, huid, htgt, -, -, -, -, -⟩ :=
    monitor_transaction_hook_spec txn st
  have h2 : (2:ℕ)^32 = 4294967296 := by norm_num
  refine ⟨?_, ?_, ?_⟩
  · intro hinv hlt
    unfold statsInvariant at *
    rw [herr, huid, htgt, h2] at *
    split_ifs <;> omega
  · intro hinv
    simpa [statsInvariant, sample_ipc_stats] using hinv
  · intro h
    simp only [statsInvariant, GetIPCInfo.init_ipc_monitoring]
    omega

/-- Witness for the amended C2 at a concrete transaction and the zeroed
boot state. -/
theorem C2_invariant_amended_witness :
    statsInvariant (monitor_transaction_hook ⟨9999, 128, -13⟩ initialIpcStats) ∧
    statsInvariant (sample_ipc_stats initialIpcStats) ∧
    statsInvariant (GetIPCInfo.init_ipc_monitoring 7 ⟨initialIpcStats, 0, false⟩).stats := by
  have h := C2_invariant_amended ⟨9999, 128, -13⟩ initialIpcStats 7 ⟨initialIpcStats, 0, false⟩
  exact ⟨h.1 (by decide) (by decide), h.2.1 (by decide), h.2.2 (by decide)⟩

/-- Counterexample to claim C3: one hook invocation with result code
`-13` does bump `uid_violations` and `errors_total` by one each, but it
also changes `transactions_total` (0 to 1), so it is not true that no
other counter of the bank changes. -/
theorem C3_other_counter_changes :
    (monitor_transaction_hook ⟨9999, 0, -13⟩ initialIpcStats).uid_violations = 1 ∧
    (monitor_transaction_hook ⟨9999, 0, -13⟩ initialIpcStats).errors_total = 1 ∧
    initialIpcStats.transactions_total = 0 ∧
    (monitor_transaction_hook ⟨9999, 0, -13⟩ initialIpcStats).transactions_total = 1 := by
  decide

/-- Claim C3 (amended): a single hook invocation with the access-denied
result code `-13` increases `uid_violations`, `errors_total` and
`transactions_total` each by exactly 1 (for counter values inside the
u32 range), updates `max_transaction_size` to
`max(current, payload_size)`, and changes no other counter of the
bank. -/
theorem C3_access_denied_classification (txn : BinderTransaction) (st : IPCStats)
    (hrc : txn.return_error = -13)
    (hu : st.uid_violations + 1 < 2^32) (he : st.errors_total + 1 < 2^32)
    (htt : st.transactions_total + 1 < 2^32) (hd : txn.data_size < 2^32) :
    (monitor_transaction_hook txn st).uid_violations = st.uid_violations + 1 ∧
    (monitor_transaction_hook txn st).errors_total = st.errors_total + 1 ∧
    (monitor_transaction_hook txn st).transactions_total = st.transactions_total + 1 ∧
    (monitor_transaction_hook txn st).max_transaction_size
      = max st.max_transaction_size txn.data_size ∧
    (monitor_transaction_hook txn st).pages_mapped_total = st.pages_mapped_total ∧
    (monitor_transaction_hook txn st).lock_contention = st.lock_contention ∧
    (monitor_transaction_hook txn st).target_mismatches = st.target_mismatches ∧
    (monitor_transaction_hook txn st).tlb_flushes_total = st.tlb_flushes_total ∧
    (monitor_transaction_hook txn st).avg_latency_ns = st.avg_latency_ns ∧
    (monitor_transaction_hook txn st).uptime_seconds = st.uptime_seconds := by
  obtain ⟨htt', hmax', herr', huid', htgt', hp, hl, htl, hav, hup⟩ :=
    monitor_transaction_hook_spec txn st
  simp only [hrc] at htt' hmax' herr' huid' htgt'
  norm_num at herr' huid' htgt'
  refine ⟨?_, ?_, ?_, ?_, hp, hl, htgt', htl, hav, hup⟩
  · rw [huid']; omega
  · rw [herr']; omega
  · rw [htt']; omega
  · rw [hmax', Nat.max_def]
    split_ifs <;> omega

/-- Witness for the amended C3 at a concrete transaction from the zeroed
bank. -/
theorem C3_access_denied_classification_witness :
    (monitor_transaction_hook ⟨9999, 300, -13⟩ initialIpcStats).uid_violations
      = initialIpcStats.uid_violations + 1 ∧
    (monitor_transaction_hook ⟨9999, 300, -13⟩ initialIpcStats).errors_total
      = initialIpcStats.errors_total + 1 ∧
    (monitor_transaction_hook ⟨9999, 300, -13⟩ initialIpcStats).transactions_total
      = initialIpcStats.transactions_total + 1 ∧
    (monitor_transaction_hook ⟨9999, 300, -13⟩ initialIpcStats).max_transaction_size
      = max initialIpcStats.max_transaction_size 300 ∧
    (monitor_transaction_hook ⟨9999, 300, -13⟩ initialIpcStats).pages_mapped_total
      = initialIpcStats.pages_mapped_total ∧
    (monitor_transaction_hook ⟨9999, 300, -13⟩ initialIpcStats).lock_contention
      = initialIpcStats.lock_contention ∧
    (monitor_transaction_hook ⟨9999, 300, -13⟩ initialIpcStats).target_mismatches
      = initialIpcStats.target_mismatches ∧
    (monitor_transaction_hook ⟨9999, 300, -13⟩ initialIpcStats).tlb_flushes_total
      = initialIpcStats.tlb_flushes_total ∧
    (monitor_transaction_hook ⟨9999, 300, -13⟩ initialIpcStats).avg_latency_ns
      = initialIpcStats.avg_latency_ns ∧
    (monitor_transaction_hook ⟨9999, 300, -13⟩ initialIpcStats).uptime_seconds
      = initialIpcStats.uptime_seconds :=
  C3_access_denied_classification ⟨9999, 300, -13⟩ initialIpcStats rfl
    (by decide) (by decide) (by decide) (by decide)

/-- Counterexample to claim C4: uid 9999 is unauthorized, yet calling
the C export `get_ipc_info` with it overwrites the export's `INFO_CACHE`
(which held a valid snapshot after a prior authorized call) with the
invalid sentinel, so the cache observable through the C entry point does
change. -/
theorem C4_info_cache_overwritten :
    GetIPCInfo.validate_uid 9999 = false ∧
    (get_ipc_info_c none (get_ipc_info_c none initialCExportState SYSTEM_UID).2 9999).2.cache
      ≠ (get_ipc_info_c none initialCExportState SYSTEM_UID).2.cache := by
  decide

/-- Claim C4 (amended): for every unauthorized uid, the aggregator
returns the invalid sentinel without invoking either resolver (empty
resolver trace) and without mutating `GLOBAL_IPC_INFO`; the C export
additionally leaves `GLOBAL_IPC_INFO` unchanged but unconditionally
overwrites its own `INFO_CACHE` return buffer with the returned
snapshot, so after an unauthorized call `INFO_CACHE` holds the sentinel
rather than its prior content. -/
theorem C4_no_resolver_no_global_mutation (os : Option OSServer) (g : IPCInfo)
    (s : CExportState) (uid : Nat) (h1 : uid ≠ SYSTEM_UID) (h2 : uid ≠ 1001) :
    (GetIPCInfo.get_ipc_info os g uid).1 = GetIPCInfo.invalid_ipc_info ∧
    (GetIPCInfo.get_ipc_info os g uid).2.1 = g ∧
    (GetIPCInfo.get_ipc_info os g uid).2.2 = [] ∧
    (get_ipc_info_c os s uid).2.global = s.global ∧
    (get_ipc_info_c os s uid).2.cache = GetIPCInfo.invalid_ipc_info := by
  have hv : GetIPCInfo.validate_uid uid = false := by
    simp [GetIPCInfo.validate_uid, h1, h2]
  simp [GetIPCInfo.get_ipc_info, get_ipc_info_c, hv]

/-- Witness for the amended C4 at uid 9999 from the boot state. -/
theorem C4_no_resolver_no_global_mutation_witness :
    (GetIPCInfo.get_ipc_info none initialGlobalIpcInfo 9999).1
      = GetIPCInfo.invalid_ipc_info ∧
    (GetIPCInfo.get_ipc_info none initialGlobalIpcInfo 9999).2.1
      = initialGlobalIpcInfo ∧
    (GetIPCInfo.get_ipc_info none initialGlobalIpcInfo 9999).2.2 = [] ∧
    (get_ipc_info_c none initialCExportState 9999).2.global
      = initialCExportState.global ∧
    (get_ipc_info_c none initialCExportState 9999).2.cache
      = GetIPCInfo.invalid_ipc_info :=
  C4_no_resolver_no_global_mutation none initialGlobalIpcInfo initialCExportState 9999
    (by decide) (by decide)

/-- Claim C5: for every uid in the allow-list, `get_ipc_info` returns a
snapshot with `valid = true`; the paging data from
`get_ipc_paging_info` satisfies
`total_ipc_region = page_size * pages_mapped`; and the snapshot's
device-identity buffer's prefix (before the padding) is exactly the
bytes of the configured identity string `NEXUS6_CODENAME`. -/
theorem C5_authorized_snapshot (os : Option OSServer) (g : IPCInfo) (uid : Nat)
    (h : uid = SYSTEM_UID ∨ uid = 1001) :
    (GetIPCInfo.get_ipc_info os g uid).1.valid = true ∧
    GetIPCInfo.get_ipc_paging_info.total_ipc_region
      = GetIPCInfo.get_ipc_paging_info.page_size
        * GetIPCInfo.get_ipc_paging_info.pages_mapped ∧
    (GetIPCInfo.get_ipc_info os g uid).1.target_device.take
        (strBytes NEXUS6_CODENAME).length = strBytes NEXUS6_CODENAME := by
  have hv : GetIPCInfo.validate_uid uid = true := by
    rcases h with h | h <;> simp [GetIPCInfo.validate_uid, h]
  refine ⟨?_, rfl, ?_⟩
  · simp [GetIPCInfo.get_ipc_info, hv]
  · simp only [GetIPCInfo.get_ipc_info, hv, Bool.not_true, Bool.false_eq_true,
      if_false, copyPrefix]
    exact List.take_left _ _

/-- Witness for C5 at uid 1001 from the boot state. -/
theorem C5_authorized_snapshot_witness :
    (GetIPCInfo.get_ipc_info none initialGlobalIpcInfo 1001).1.valid = true ∧
    GetIPCInfo.get_ipc_paging_info.total_ipc_region
      = GetIPCInfo.get_ipc_paging_info.page_size
        * GetIPCInfo.get_ipc_paging_info.pages_mapped ∧
    (GetIPCInfo.get_ipc_info none initialGlobalIpcInfo 1001).1.target_device.take
        (strBytes NEXUS6_CODENAME).length = strBytes NEXUS6_CODENAME :=
  C5_authorized_snapshot none initialGlobalIpcInfo 1001 (Or.inr rfl)

/-- Claim C6: `init_ipc_monitoring` stores the current monotonic counter
sample as the boot timestamp and zeroes exactly `transactions_total`,
`pages_mapped_total`, `lock_contention` and `errors_total`, leaving the
six other counters at their prior values; since this holds for every
prior state, re-invocation resets only those same four counters. -/
theorem C6_init_resets_four_counters (now : Nat) (s : MonitorState) :
    (GetIPCInfo.init_ipc_monitoring now s).boot_timestamp = now ∧
    (GetIPCInfo.init_ipc_monitoring now s).stats.transactions_total = 0 ∧
    (GetIPCInfo.init_ipc_monitoring now s).stats.pages_mapped_total = 0 ∧
    (GetIPCInfo.init_ipc_monitoring now s).stats.lock_contention = 0 ∧
    (GetIPCInfo.init_ipc_monitoring now s).stats.errors_total = 0 ∧
    (GetIPCInfo.init_ipc_monitoring now s).stats.uid_violations
      = s.stats.uid_violations ∧
    (GetIPCInfo.init_ipc_monitoring now s).stats.target_mismatches
      = s.stats.target_mismatches ∧
    (GetIPCInfo.init_ipc_monitoring now s).stats.tlb_flushes_total
      = s.stats.tlb_flushes_total ∧
    (GetIPCInfo.init_ipc_monitoring now s).stats.max_transaction_size
      = s.stats.max_transaction_size ∧
    (GetIPCInfo.init_ipc_monitoring now s).stats.avg_latency_ns
      = s.stats.avg_latency_ns ∧
    (GetIPCInfo.init_ipc_monitoring now s).stats.uptime_seconds
      = s.stats.uptime_seconds :=
  ⟨rfl, rfl, rfl, rfl, rfl, rfl, rfl, rfl, rfl, rfl, rfl⟩

/-- Folding the hook over result-code-0 transactions: `transactions_total`
advances by the number of transactions modulo `2^32` and `errors_total`
is untouched. -/
theorem runHooks_zero_result (txns : List BinderTransaction) :
    ∀ st : IPCStats, (∀ t ∈ txns, t.return_error = 0) →
      st.transactions_total < 2^32 →
      (runHooks txns st).transactions_total
        = (st.transactions_total + txns.length) % 2^32 ∧
      (runHooks txns st).errors_total = st.errors_total := by
  induction txns with
  | nil =>
    intro st _ hlt
    simp only [runHooks, List.foldl_nil, List.length_nil, Nat.add_zero]
    exact ⟨(Nat.mod_eq_of_lt hlt).symm, trivial⟩
  | cons a txns ih =>
    intro st h hlt
    obtain ⟨htt', -, herr', -, -, -, -, -, -, -⟩ := monitor_transaction_hook_spec a st
    have ha : a.return_error = 0 := h a (List.mem_cons_self a txns)
    have hrest : ∀ t ∈ txns, t.return_error = 0 := fun t ht => h t (List.mem_cons_of_mem a ht)
    have hstep : runHooks (a :: txns) st = runHooks txns (monitor_transaction_hook a st) := rfl
    have hlt' : (monitor_transaction_hook a st).transactions_total < 2^32 := by
      rw [htt']; exact Nat.mod_lt _ (by norm_num)
    obtain ⟨ih1, ih2⟩ := ih (monitor_transaction_hook a st) hrest hlt'
    rw [hstep]
    constructor
    · rw [ih1, htt', Nat.mod_add_mod, List.length_cons]
      congr 1
      omega
    · rw [ih2, herr']
      simp [ha]

/-- Counterexample to claim C7: the claim quantifies over every starting
counter state; from a state with `transactions_total = 2^32 - 1`
(representable in the u32 counter) one result-code-0 invocation wraps
the counter to 0 instead of increasing it by exactly 1. -/
theorem C7_wraparound_counterexample :
    (runHooks [⟨1000, 0, 0⟩]
        { initialIpcStats with transactions_total := 2^32 - 1 }).transactions_total = 0 ∧
    ({ initialIpcStats with transactions_total := 2^32 - 1 } : IPCStats).transactions_total
        + 1 ≠ 0 := by
  decide

/-- Claim C7 (amended): for every N and every starting counter state in
the u32 range, after exactly N hook invocations with result code 0,
`transactions_total` equals its old value plus N modulo `2^32` — so it
has increased by exactly N whenever no wrap-around occurs — and
`errors_total` is unchanged. -/
theorem C7_success_accounting (txns : List BinderTransaction) (st : IPCStats)
    (hrc : ∀ t ∈ txns, t.return_error = 0)
    (hlt : st.transactions_total < 2^32) :
    (runHooks txns st).transactions_total
      = (st.transactions_total + txns.length) % 2^32 ∧
    (st.transactions_total + txns.length < 2^32 →
      (runHooks txns st).transactions_total
        = st.transactions_total + txns.length) ∧
    (runHooks txns st).errors_total = st.errors_total := by
  obtain ⟨h1, h2⟩ := runHooks_zero_result txns st hrc hlt
  exact ⟨h1, fun hw => by rw [h1, Nat.mod_eq_of_lt hw], h2⟩

/-- Witness for the amended C7: two result-code-0 transactions from the
zeroed bank. -/
theorem C7_success_accounting_witness :
    (runHooks [⟨1, 8, 0⟩, ⟨2, 16, 0⟩] initialIpcStats).transactions_total
      = (initialIpcStats.transactions_total
          + ([⟨1, 8, 0⟩, ⟨2, 16, 0⟩] : List BinderTransaction).length) % 2^32 ∧
    (initialIpcStats.transactions_total
        + ([⟨1, 8, 0⟩, ⟨2, 16, 0⟩] : List BinderTransaction).length < 2^32 →
      (runHooks [⟨1, 8, 0⟩, ⟨2, 16, 0⟩] initialIpcStats).transactions_total
        = initialIpcStats.transactions_total
          + ([⟨1, 8, 0⟩, ⟨2, 16, 0⟩] : List BinderTransaction).length) ∧
    (runHooks [⟨1, 8, 0⟩, ⟨2, 16, 0⟩] initialIpcStats).errors_total
      = initialIpcStats.errors_total :=
  C7_success_accounting [⟨1, 8, 0⟩, ⟨2, 16, 0⟩] initialIpcStats (by decide) (by decide)

/-- Claim C8: the hook updates `max_transaction_size` to
`max(current, payload_size)` on every invocation (payload sizes are in
the u32 `usize` range of the 32-bit target); in particular, from the
zeroed bank, payload sizes 10, 500, 42 in sequence leave
`max_transaction_size = 500`. -/
theorem C8_max_size_tracking (txn : BinderTransaction) (st : IPCStats)
    (hd : txn.data_size < 2^32) :
    (monitor_transaction_hook txn st).max_transaction_size
      = max st.max_transaction_size txn.data_size ∧
    (runHooks [⟨0, 10, 0⟩, ⟨0, 500, 0⟩, ⟨0, 42, 0⟩]
        initialIpcStats).max_transaction_size = 500 := by
  obtain ⟨-, hmax', -, -, -, -, -, -, -, -⟩ := monitor_transaction_hook_spec txn st
  refine ⟨?_, by decide⟩
  rw [hmax', Nat.max_def]
  split_ifs <;> omega

/-- Witness for C8 at payload size 777 from the zeroed bank. -/
theorem C8_max_size_tracking_witness :
    (monitor_transaction_hook ⟨0, 777, 0⟩ initialIpcStats).max_transaction_size
      = max initialIpcStats.max_transaction_size 777 ∧
    (runHooks [⟨0, 10, 0⟩, ⟨0, 500, 0⟩, ⟨0, 42, 0⟩]
        initialIpcStats).max_transaction_size = 500 :=
  C8_max_size_tracking ⟨0, 777, 0⟩ initialIpcStats (by decide)

/-- Claim C9: with the external OS-server object absent,
`get_ipc_targeting_info` returns the static configuration: the
default-true `target_valid` (fail-open), the allow-list whose populated
prefix is exactly [SYSTEM_UID, 1001], and `uid_count = 2`.  Totality
(must not fail) holds because the function is total. -/
theorem C9_fail_open_defaults :
    (GetIPCInfo.get_ipc_targeting_info none).target_valid = true ∧
    (GetIPCInfo.get_ipc_targeting_info none).allowed_uids
      = [SYSTEM_UID, 1001, 0, 0, 0, 0, 0, 0] ∧
    (GetIPCInfo.get_ipc_targeting_info none).uid_count = 2 ∧
    (GetIPCInfo.get_ipc_targeting_info none).allowed_uids.take
      (GetIPCInfo.get_ipc_targeting_info none).uid_count = [SYSTEM_UID, 1001] :=
  ⟨rfl, rfl, rfl, rfl⟩

/-- Claim C10: the aggregator's access decision agrees with the
advertised allow-list: `get_ipc_info` (with the OS server absent, so the
targeting info is the static configuration) yields `valid = true`
exactly when the uid occurs among the first `uid_count` entries of
`allowed_uids`. -/
theorem C10_access_matches_allowlist (g : IPCInfo) (uid : Nat) :
    (GetIPCInfo.get_ipc_info none g uid).1.valid = true ↔
      uid ∈ (GetIPCInfo.get_ipc_targeting_info none).allowed_uids.take
        (GetIPCInfo.get_ipc_targeting_info none).uid_count := by
  have hlist : (GetIPCInfo.get_ipc_targeting_info none).allowed_uids.take
      (GetIPCInfo.get_ipc_targeting_info none).uid_count = [SYSTEM_UID, 1001] := rfl
  rw [hlist]
  by_cases h1 : uid = SYSTEM_UID
  · subst h1
    have hv : GetIPCInfo.validate_uid SYSTEM_UID = true := by decide
    simp [GetIPCInfo.get_ipc_info, hv]
  · by_cases h2 : uid = 1001
    · subst h2
      have hv : GetIPCInfo.validate_uid 1001 = true := by decide
      simp [GetIPCInfo.get_ipc_info, hv]
    · have hv : GetIPCInfo.validate_uid uid = false := by
        simp [GetIPCInfo.validate_uid, h1, h2]
      simp [GetIPCInfo.get_ipc_info, hv, GetIPCInfo.invalid_ipc_info, h1, h2]
